import Mathlib

/-!
Shallow embedding of the session-resilient connection workflow of the
sdk0hero dashboard: the browser connection helper `connectToBrowserSandbox`
with its `getSession` reconnection supplier and default visibility handler
(src/unnamed/part_005, lines 26-76), the `useCodeSandbox` hook actions
`connectToSandbox` / `disconnectFromSandbox` and its
`codesandbox-connection-error` listener (part_005, lines 102-420), and the
global `unhandledrejection` / `error` listeners (src/unnamed/part_004).

Remote calls of the external SDK (`sdk.sandboxes.resume`,
`sandbox.createSession`, the browser transport open, `client.disconnect`)
are modelled by an environment `Env` that decides, per invocation, whether
the call succeeds or rejects and with which error message.  A `World`
threads invocation counters, the registry of visibility-change listeners
of the host document, and a trace of observable events.  Sessions carry a
serial number (the value of the session-creation counter at the moment
they were issued), so that freshness of sessions across invocations is
expressible.
-/

namespace SdkHero

abbrev SandboxId := String

/-- A session descriptor: bound to a sandbox id, stamped with the serial
number of the `createSession` invocation that produced it. -/
structure Session where
  sandboxId : SandboxId
  serial : Nat
deriving DecidableEq

/-- The resumed sandbox object returned by `sdk.sandboxes.resume`. -/
structure Sandbox where
  id : SandboxId
deriving DecidableEq

/-- The live client returned by the browser transport: holds the session it
was opened with and the handle of the visibility listener the transport
registered via the supplied `onFocusChange` registration function. -/
structure Client where
  session : Session
  listenerHandle : Nat
deriving DecidableEq

/-- Observable events of one run: remote calls, listener registry changes,
and invocations of the transport notify callback by the default
visibility-change handler. -/
inductive Event where
  | resumeCall (id : SandboxId)
  | createSessionCall (id : SandboxId)
  | addListener
  | removeListener
  | transportOpenCall
  | clientDisconnectCall
  | notifyCall (visible : Bool)
deriving DecidableEq

/-- Environment: outcome of each remote call of the external SDK.
`resumeFails k = some m` means the k-th resume invocation (0-based, counted
over the whole world) rejects with an error whose message is `m`; `none`
means it succeeds.  Likewise for session creation, the transport open, and
`client.disconnect`. -/
structure Env where
  resumeFails : Nat → Option String
  createFails : Nat → Option String
  openFails : Option String
  disconnectThrows : Bool

/-- World state threaded through a run: how many resume and
session-creation calls have been issued, the visibility-change listeners
currently registered on the host document (by fresh token), and the event
trace. -/
structure World where
  resumeCount : Nat
  createCount : Nat
  listeners : List Nat
  nextListenerId : Nat
  trace : List Event
deriving DecidableEq

/-- The empty initial world. -/
def World.init : World :=
  { resumeCount := 0, createCount := 0, listeners := [], nextListenerId := 0, trace := [] }

/-- Remote call `sdk.sandboxes.resume(sandboxId)` (part_005 line 36 and
line 51): counts the invocation and either returns the resumed sandbox
object or rejects with the message the environment assigns. -/
def resumeSandbox (env : Env) (id : SandboxId) (w : World) :
    Except String Sandbox × World :=
  let w1 : World :=
    { w with resumeCount := w.resumeCount + 1, trace := w.trace ++ [Event.resumeCall id] }
  match env.resumeFails w.resumeCount with
  | none => (Except.ok ⟨id⟩, w1)
  | some msg => (Except.error msg, w1)

/-- Remote call `sandbox.createSession()` (part_005 line 39 and line 52):
counts the invocation; a successful call issues a session stamped with the
current value of the session-creation counter, so every issued session is
distinct from every earlier one. -/
def createSession (env : Env) (sb : Sandbox) (w : World) :
    Except String Session × World :=
  let w1 : World :=
    { w with createCount := w.createCount + 1, trace := w.trace ++ [Event.createSessionCall sb.id] }
  match env.createFails w.createCount with
  | none => (Except.ok ⟨sb.id, w.createCount⟩, w1)
  | some msg => (Except.error msg, w1)

/-- The default `onFocusChange` registration of part_005 lines 61-69:
`document.addEventListener('visibilitychange', onVisibilityChange)`.  A
fresh token identifies the added handler (in the source the handler is a
fresh closure, unique per registration). -/
def addVisibilityListener (w : World) : Nat × World :=
  (w.nextListenerId,
   { w with listeners := w.listeners ++ [w.nextListenerId],
            nextListenerId := w.nextListenerId + 1,
            trace := w.trace ++ [Event.addListener] })

/-- The unsubscribe function returned by the default `onFocusChange`
registration (part_005 lines 66-68):
`document.removeEventListener('visibilitychange', onVisibilityChange)`
removes exactly the handler that was registered. -/
def removeVisibilityListener (h : Nat) (w : World) : World :=
  { w with listeners := w.listeners.erase h, trace := w.trace ++ [Event.removeListener] }

/-- A `visibilitychange` event of the host document while
`document.visibilityState` is `v`: every registered default handler runs
`notify(document.visibilityState === 'visible')` (part_005 lines 62-64). -/
def fireVisibility (v : String) (w : World) : World :=
  { w with trace := w.trace ++ w.listeners.map (fun _ => Event.notifyCall (v == "visible")) }

/-- Modelled from the spec: the open step of the external browser SDK
transport (`openClient` in spec section 6), which is imported from
`@codesandbox/sdk/browser` and is not part of this repository.  Per the
contract, it invokes the supplied `onFocusChange` registration function
(here the default handler of part_005 lines 61-69) obtaining an
unsubscribe function, then opens the socket with the supplied session; per
spec section 7 a failed open leaves no half-registered visibility listener,
so on failure it runs the unsubscribe before rejecting. -/
def transportOpen (env : Env) (session : Session) (w : World) :
    Except String Client × World :=
  let p := addVisibilityListener w
  let w2 : World := { p.2 with trace := p.2.trace ++ [Event.transportOpenCall] }
  match env.openFails with
  | none => (Except.ok ⟨session, p.1⟩, w2)
  | some msg => (Except.error msg, removeVisibilityListener p.1 w2)

/-- Modelled from the spec: `client.disconnect()` of the external SDK
(spec section 6), releasing the transport and its visibility listener; the
environment decides whether the teardown itself throws (in which case the
listener release did not complete). -/
def clientDisconnect (env : Env) (c : Client) (w : World) :
    Except String Unit × World :=
  let w1 : World := { w with trace := w.trace ++ [Event.clientDisconnectCall] }
  if env.disconnectThrows then (Except.error "disconnect failed", w1)
  else (Except.ok (), removeVisibilityListener c.listenerHandle w1)

/-- The `getSession` reconnection supplier passed to the transport
(part_005 lines 47-59): on every invocation it resumes the sandbox by id
and creates a brand-new session; the try/catch only logs and rethrows, so
errors propagate unchanged. -/
def getSession (env : Env) (id : SandboxId) (w : World) :
    Except String Session × World :=
  match resumeSandbox env id w with
  | (Except.error e, w1) => (Except.error e, w1)
  | (Except.ok sb, w1) => createSession env sb w1

/-- `connectToBrowserSandbox` (part_005 lines 26-76): resume the sandbox,
then create the initial session, then open the browser transport with that
session (supplying `getSession` and the default visibility handler); each
step starts only after the previous one resolved, and any rejection
short-circuits the rest. -/
def connectToBrowserSandbox (env : Env) (id : SandboxId) (w : World) :
    Except String (Client × Sandbox) × World :=
  match resumeSandbox env id w with
  | (Except.error e, w1) => (Except.error e, w1)
  | (Except.ok sandbox, w1) =>
    match createSession env sandbox w1 with
    | (Except.error e, w2) => (Except.error e, w2)
    | (Except.ok initialSession, w2) =>
      match transportOpen env initialSession w2 with
      | (Except.error e, w3) => (Except.error e, w3)
      | (Except.ok client, w3) => (Except.ok (client, sandbox), w3)

/-- Iterate the `getSession` supplier a number of times over one
connection, collecting the returned results (the transport invokes the
supplier once per reconnect; invocations are serialized). -/
def iterGetSession (env : Env) (id : SandboxId) (w : World) : Nat → List (Except String Session) × World
  | 0 => ([], w)
  | n + 1 =>
    let p := getSession env id w
    let q := iterGetSession env id p.2 n
    (p.1 :: q.1, q.2)

/-- JavaScript `String.prototype.includes`: substring containment. -/
def includes (s sub : String) : Bool :=
  (List.range (s.length + 1)).any fun i => (s.data.drop i).take sub.length == sub.data

/-- Caller-side listing data of a sandbox (`sandboxInfo` in the hook):
the id plus the descriptive metadata the listing endpoint returned. -/
structure SandboxInfo where
  id : SandboxId
  title : Option String
  privacy : Option String
  createdAt : Option String
  updatedAt : Option String
  tags : Option (List String)
deriving DecidableEq

/-- The resolved sandbox handle stored in the hook state: the resumed
sandbox object with the caller metadata overlaid on it (part_005 lines
252-259, `sandboxWithMetadata`). -/
structure SandboxMeta where
  id : SandboxId
  title : Option String
  privacy : Option String
  createdAt : Option String
  updatedAt : Option String
  tags : Option (List String)
deriving DecidableEq

/-- The `SandboxWithClient` record of part_005 lines 79-83. -/
structure SandboxWithClient where
  sandbox : Option SandboxMeta
  client : Option Client
  isConnecting : Bool
deriving DecidableEq

/-- The hook state of `useCodeSandbox`: the `activeSandbox` and
`connectionError` React state cells (part_005 lines 104-105). -/
structure HookState where
  activeSandbox : Option SandboxWithClient
  connectionError : Option String
deriving DecidableEq

/-- The transport-classified error message of part_005 line 276. -/
def webSocketErrorMessage : String :=
  "WebSocket connection failed. Please check your internet connection and try again."

/-- The session-classified error message of part_005 line 278. -/
def sessionErrorMessage : String :=
  "Failed to create sandbox session. The sandbox may be starting up - try again in a moment."

/-- The message set by the global connection-error listener
(part_005 line 117). -/
def connectionLostMessage : String :=
  "Connection lost due to WebSocket error. Please try reconnecting."

/-- The error-message classification of the hook's catch clause (part_005
lines 273-282): a message containing WebSocket yields the transport text,
otherwise one containing session yields the session text, otherwise the
generic Connection failed text carrying the original message. -/
def connectErrorMessage (msg : String) : String :=
  if includes msg "WebSocket" then webSocketErrorMessage
  else if includes msg "session" then sessionErrorMessage
  else "Connection failed: " ++ msg

/-- Result of one call of the hook's `connectToSandbox`: the guard path
returns without doing anything (`undefined`), the success path resolves
with the client, the failure path rethrows the error. -/
inductive ConnectResult where
  | noop
  | ok (c : Client)
  | err (msg : String)
deriving DecidableEq

/-- The hook's `connectToSandbox` callback (part_005 lines 224-288).
`hasSdk` is whether `sdk` is non-null (an API key was supplied); `info` is
`sandboxInfo`, `none` standing for a falsy argument.  Guard: if either is
missing, return immediately.  Otherwise clear the previous error, set the
connecting placeholder, run `connectToBrowserSandbox`; on success overlay
the caller metadata on the resumed sandbox and store it with the client as
the active sandbox; on failure set the classified error message, clear the
active sandbox and rethrow. -/
def hookConnectToSandbox (env : Env) (hasSdk : Bool) (info : Option SandboxInfo)
    (st : HookState) (w : World) : ConnectResult × HookState × World :=
  match info, hasSdk with
  | none, _ => (ConnectResult.noop, st, w)
  | some _, false => (ConnectResult.noop, st, w)
  | some i, true =>
    let st1 : HookState :=
      { activeSandbox := some ⟨none, none, true⟩, connectionError := none }
    match connectToBrowserSandbox env i.id w with
    | (Except.ok (client, sandbox), w1) =>
      let meta : SandboxMeta :=
        ⟨sandbox.id, i.title, i.privacy, i.createdAt, i.updatedAt, i.tags⟩
      (ConnectResult.ok client,
       { st1 with activeSandbox := some ⟨some meta, some client, false⟩ }, w1)
    | (Except.error e, w1) =>
      (ConnectResult.err e,
       { st1 with activeSandbox := none, connectionError := some (connectErrorMessage e) }, w1)

/-- The hook's `disconnectFromSandbox` callback (part_005 lines 353-364):
if an active client exists, call its `disconnect` inside a try/catch that
swallows the error; then clear the active sandbox and the connection
error.  Total by construction — it never throws. -/
def disconnectFromSandbox (env : Env) (st : HookState) (w : World) : HookState × World :=
  let w1 : World :=
    match st.activeSandbox with
    | some a =>
      match a.client with
      | some c => (clientDisconnect env c w).2
      | none => w
    | none => w
  ({ activeSandbox := none, connectionError := none }, w1)

/-- The hook's `codesandbox-connection-error` listener (part_005 lines
112-130): only when an active sandbox exists, set the connection-lost
message, disconnect the client (swallowing errors) and clear the active
sandbox; with no active sandbox the event changes nothing. -/
def handleConnectionError (env : Env) (st : HookState) (w : World) : HookState × World :=
  match st.activeSandbox with
  | none => (st, w)
  | some a =>
    let w1 : World :=
      match a.client with
      | some c => (clientDisconnect env c w).2
      | none => w
    ({ activeSandbox := none, connectionError := some connectionLostMessage }, w1)

/-- The substring filter of the global listeners of part_004: an error
qualifies when its message contains DataView or Offset is outside the
bounds. -/
def isSdkDataViewError (msg : String) : Bool :=
  includes msg "DataView" || includes msg "Offset is outside the bounds"

/-- Outcome of a global listener: whether `event.preventDefault()` was
called (the crash suppressed) and whether the custom
`codesandbox-connection-error` event was dispatched. -/
structure GlobalHandlerOutcome where
  prevented : Bool
  dispatched : Bool
deriving DecidableEq

/-- The global `unhandledrejection` listener (part_004 lines 8-24):
only a qualifying message is suppressed and re-dispatched. -/
def unhandledRejectionHandler (msg : String) : GlobalHandlerOutcome :=
  if isSdkDataViewError msg then ⟨true, true⟩ else ⟨false, false⟩

/-- The global `error` listener (part_004 lines 27-43): same filter and
same effects as the rejection listener. -/
def windowErrorHandler (msg : String) : GlobalHandlerOutcome :=
  if isSdkDataViewError msg then ⟨true, true⟩ else ⟨false, false⟩

/-- Whether an event is a transport open attempt. -/
def Event.isOpenCall : Event → Bool
  | Event.transportOpenCall => true
  | _ => false

/-- Count the transport open attempts recorded in a trace. -/
def openCalls (t : List Event) : Nat :=
  (t.filter Event.isOpenCall).length

/-! ### Step-shape lemmas -/

theorem resumeSandbox_ok (env : Env) (id : SandboxId) (w : World)
    (h : env.resumeFails w.resumeCount = none) :
    resumeSandbox env id w =
      (Except.ok ⟨id⟩,
       { w with resumeCount := w.resumeCount + 1,
                trace := w.trace ++ [Event.resumeCall id] }) := by
  simp [resumeSandbox, h]

theorem resumeSandbox_err (env : Env) (id : SandboxId) (w : World) (m : String)
    (h : env.resumeFails w.resumeCount = some m) :
    resumeSandbox env id w =
      (Except.error m,
       { w with resumeCount := w.resumeCount + 1,
                trace := w.trace ++ [Event.resumeCall id] }) := by
  simp [resumeSandbox, h]

theorem createSession_ok (env : Env) (sb : Sandbox) (w : World)
    (h : env.createFails w.createCount = none) :
    createSession env sb w =
      (Except.ok ⟨sb.id, w.createCount⟩,
       { w with createCount := w.createCount + 1,
                trace := w.trace ++ [Event.createSessionCall sb.id] }) := by
  simp [createSession, h]

theorem createSession_err (env : Env) (sb : Sandbox) (w : World) (m : String)
    (h : env.createFails w.createCount = some m) :
    createSession env sb w =
      (Except.error m,
       { w with createCount := w.createCount + 1,
                trace := w.trace ++ [Event.createSessionCall sb.id] }) := by
  simp [createSession, h]

/-- Successful run of `connectToBrowserSandbox`: the client is opened with
the session stamped by the current creation counter and the freshly
registered visibility listener; explicit resulting world. -/
theorem connectToBrowserSandbox_ok (env : Env) (id : SandboxId) (w : World)
    (h1 : env.resumeFails w.resumeCount = none)
    (h2 : env.createFails w.createCount = none)
    (h3 : env.openFails = none) :
    connectToBrowserSandbox env id w =
      (Except.ok (⟨⟨id, w.createCount⟩, w.nextListenerId⟩, ⟨id⟩),
       { w with resumeCount := w.resumeCount + 1,
                createCount := w.createCount + 1,
                listeners := w.listeners ++ [w.nextListenerId],
                nextListenerId := w.nextListenerId + 1,
                trace := w.trace ++ [Event.resumeCall id, Event.createSessionCall id,
                                     Event.addListener, Event.transportOpenCall] }) := by
  simp [connectToBrowserSandbox, resumeSandbox, createSession, transportOpen,
        addVisibilityListener, h1, h2, h3]

/-- Complete case analysis of `connectToBrowserSandbox`: exactly one of
the four shapes occurs, determined by which remote step (if any) fails. -/
theorem connectToBrowserSandbox_cases (env : Env) (id : SandboxId) (w : World) :
    (∃ m, env.resumeFails w.resumeCount = some m ∧
      connectToBrowserSandbox env id w =
        (Except.error m,
         { w with resumeCount := w.resumeCount + 1,
                  trace := w.trace ++ [Event.resumeCall id] })) ∨
    (env.resumeFails w.resumeCount = none ∧
      ∃ m, env.createFails w.createCount = some m ∧
      connectToBrowserSandbox env id w =
        (Except.error m,
         { w with resumeCount := w.resumeCount + 1,
                  createCount := w.createCount + 1,
                  trace := w.trace ++ [Event.resumeCall id, Event.createSessionCall id] })) ∨
    (env.resumeFails w.resumeCount = none ∧ env.createFails w.createCount = none ∧
      ∃ m, env.openFails = some m ∧
      connectToBrowserSandbox env id w =
        (Except.error m,
         { w with resumeCount := w.resumeCount + 1,
                  createCount := w.createCount + 1,
                  listeners := (w.listeners ++ [w.nextListenerId]).erase w.nextListenerId,
                  nextListenerId := w.nextListenerId + 1,
                  trace := w.trace ++ [Event.resumeCall id, Event.createSessionCall id,
                                       Event.addListener, Event.transportOpenCall,
                                       Event.removeListener] })) ∨
    (env.resumeFails w.resumeCount = none ∧ env.createFails w.createCount = none ∧
      env.openFails = none ∧
      connectToBrowserSandbox env id w =
        (Except.ok (⟨⟨id, w.createCount⟩, w.nextListenerId⟩, ⟨id⟩),
         { w with resumeCount := w.resumeCount + 1,
                  createCount := w.createCount + 1,
                  listeners := w.listeners ++ [w.nextListenerId],
                  nextListenerId := w.nextListenerId + 1,
                  trace := w.trace ++ [Event.resumeCall id, Event.createSessionCall id,
                                       Event.addListener, Event.transportOpenCall] })) := by
  cases h1 : env.resumeFails w.resumeCount with
  | some m =>
    exact Or.inl ⟨m, rfl, by simp [connectToBrowserSandbox, resumeSandbox, h1]⟩
  | none =>
    cases h2 : env.createFails w.createCount with
    | some m =>
      refine Or.inr (Or.inl ⟨rfl, m, rfl, ?_⟩)
      simp [connectToBrowserSandbox, resumeSandbox, createSession, h1, h2]
    | none =>
      cases h3 : env.openFails with
      | some m =>
        refine Or.inr (Or.inr (Or.inl ⟨rfl, rfl, m, rfl, ?_⟩))
        simp [connectToBrowserSandbox, resumeSandbox, createSession, transportOpen,
              addVisibilityListener, removeVisibilityListener, h1, h2, h3]
      | none =>
        exact Or.inr (Or.inr (Or.inr ⟨rfl, rfl, rfl,
          connectToBrowserSandbox_ok env id w h1 h2 h3⟩))

/-- Successful run of the hook's `connectToSandbox`: explicit result,
hook state (with the metadata overlay), and world. -/
theorem hookConnectToSandbox_ok (env : Env) (i : SandboxInfo) (st : HookState) (w : World)
    (h1 : env.resumeFails w.resumeCount = none)
    (h2 : env.createFails w.createCount = none)
    (h3 : env.openFails = none) :
    hookConnectToSandbox env true (some i) st w =
      (ConnectResult.ok ⟨⟨i.id, w.createCount⟩, w.nextListenerId⟩,
       { activeSandbox := some ⟨some ⟨i.id, i.title, i.privacy, i.createdAt, i.updatedAt, i.tags⟩,
                                some ⟨⟨i.id, w.createCount⟩, w.nextListenerId⟩, false⟩,
         connectionError := none },
       { w with resumeCount := w.resumeCount + 1,
                createCount := w.createCount + 1,
                listeners := w.listeners ++ [w.nextListenerId],
                nextListenerId := w.nextListenerId + 1,
                trace := w.trace ++ [Event.resumeCall i.id, Event.createSessionCall i.id,
                                     Event.addListener, Event.transportOpenCall] }) := by
  simp [hookConnectToSandbox, connectToBrowserSandbox_ok env i.id w h1 h2 h3]

/-- Successful run of the `getSession` supplier: a brand-new session
stamped with the current creation counter, one more resume and one more
session-creation call. -/
theorem getSession_ok (env : Env) (id : SandboxId) (w : World)
    (h1 : env.resumeFails w.resumeCount = none)
    (h2 : env.createFails w.createCount = none) :
    getSession env id w =
      (Except.ok ⟨id, w.createCount⟩,
       { w with resumeCount := w.resumeCount + 1,
                createCount := w.createCount + 1,
                trace := w.trace ++ [Event.resumeCall id, Event.createSessionCall id] }) := by
  simp [getSession, resumeSandbox, createSession, h1, h2]

/-- Neither branch of the hook's disconnect changes the remote-call
counters. -/
theorem disconnectFromSandbox_counts (env : Env) (st : HookState) (w : World) :
    (disconnectFromSandbox env st w).2.resumeCount = w.resumeCount ∧
    (disconnectFromSandbox env st w).2.createCount = w.createCount := by
  unfold disconnectFromSandbox
  rcases hst : st.activeSandbox with _ | a
  · simp
  · rcases hc : a.client with _ | c
    · simp [hc]
    · cases hd : env.disconnectThrows <;>
        simp [clientDisconnect, removeVisibilityListener, hd, hc]

/-- Characterization of `N` serialized invocations of the `getSession`
supplier under an environment where every resume and every session
creation succeeds: the `k`-th invocation returns the session with serial
`w.createCount + k`, and the counters advance by exactly `N`. -/
theorem iterGetSession_spec (env : Env) (id : SandboxId)
    (hres : ∀ k, env.resumeFails k = none)
    (hcre : ∀ k, env.createFails k = none) :
    ∀ n w,
      (iterGetSession env id w n).1
          = (List.range n).map (fun k => Except.ok ⟨id, w.createCount + k⟩) ∧
      (iterGetSession env id w n).2.resumeCount = w.resumeCount + n ∧
      (iterGetSession env id w n).2.createCount = w.createCount + n := by
  intro n
  induction n with
  | zero => intro w; simp [iterGetSession]
  | succ n ih =>
    intro w
    have hg := getSession_ok env id w (hres w.resumeCount) (hcre w.createCount)
    have ihw := ih { w with resumeCount := w.resumeCount + 1,
                            createCount := w.createCount + 1,
                            trace := w.trace ++ [Event.resumeCall id, Event.createSessionCall id] }
    refine ⟨?_, ?_, ?_⟩
    · simp only [iterGetSession, hg, ihw.1]
      rw [List.range_succ_eq_map, List.map_cons, List.map_map]
      refine congrArg₂ List.cons rfl (congrArg₂ List.map (funext fun k => ?_) rfl)
      simp [Nat.add_assoc, Nat.add_comm 1 k]
    · simp only [iterGetSession, hg, ihw.2.1]
      omega
    · simp only [iterGetSession, hg, ihw.2.2]
      omega

/-- Erasing a freshly appended element restores the original list. -/
theorem erase_append_fresh (l : List Nat) (n : Nat) (h : n ∉ l) :
    (l ++ [n]).erase n = l := by
  rw [List.erase_append_right _ h, List.erase_cons_head, List.append_nil]

/-- Transport open attempts counted over an appended trace. -/
theorem openCalls_append (s t : List Event) :
    openCalls (s ++ t) = openCalls s + openCalls t := by
  simp [openCalls, List.filter_append]

/-! ### Concrete inputs used by witnesses and counterexamples -/

/-- An environment in which every remote call succeeds. -/
def envAllOk : Env := ⟨fun _ => none, fun _ => none, none, false⟩

/-- An environment whose every resume call rejects with message boom. -/
def envResumeBoom : Env := ⟨fun _ => some "boom", fun _ => none, none, false⟩

/-- An environment whose transport open rejects with a WebSocket message
after the resume and session-creation calls succeed. -/
def envOpenFail : Env := ⟨fun _ => none, fun _ => none, some "WebSocket closed", false⟩

/-- The listing entry of the example scenario: sandbox abc123 with caller
metadata title Demo, the other fields absent. -/
def demoInfo : SandboxInfo := ⟨"abc123", some "Demo", none, none, none, none⟩

/-! ### Claims -/

/-- C10: the hook's `connectToSandbox` entry point is a silent no-op when
the SDK is null (no API key) or the sandbox info argument is falsy: the
call returns immediately, performs no remote operation, and leaves the
active-sandbox reference and the connection-error state unchanged. -/
theorem claim_c10_guard_noop (env : Env) (hasSdk : Bool) (info : Option SandboxInfo)
    (st : HookState) (w : World) (h : hasSdk = false ∨ info = none) :
    hookConnectToSandbox env hasSdk info st w = (ConnectResult.noop, st, w) := by
  rcases h with h | h
  · subst h; cases info <;> simp [hookConnectToSandbox]
  · subst h; simp [hookConnectToSandbox]

/-- Witness for C10 at a concrete input: SDK missing. -/
theorem claim_c10_guard_noop_witness :
    hookConnectToSandbox envAllOk false (some demoInfo) ⟨none, none⟩ World.init
      = (ConnectResult.noop, ⟨none, none⟩, World.init) :=
  claim_c10_guard_noop envAllOk false (some demoInfo) ⟨none, none⟩ World.init (Or.inl rfl)

/-- C7: `disconnectFromSandbox` is total (it returns a state, never an
exception — the teardown error of `client.disconnect` is swallowed by the
try/catch), always clears the active sandbox and the connection error
(also when the client is in an error state or its teardown throws), and an
immediately repeated call reproduces the same state and world — in
particular the second call performs no second teardown and no second
listener unregistration. -/
theorem claim_c7_disconnect_idempotent (env : Env) (st : HookState) (w : World) :
    (disconnectFromSandbox env st w).1.activeSandbox = none ∧
    (disconnectFromSandbox env st w).1.connectionError = none ∧
    disconnectFromSandbox env (disconnectFromSandbox env st w).1
        (disconnectFromSandbox env st w).2
      = disconnectFromSandbox env st w := by
  exact ⟨rfl, rfl, rfl⟩

/-- C9: the global side channel is substring-filtered and state-clearing:
an unhandled rejection or window error is suppressed
(`event.preventDefault`) and re-dispatched as the custom
codesandbox-connection-error event exactly when its message contains
DataView or Offset is outside the bounds; the hook's listener for that
event leaves the state untouched when no active sandbox exists, and
otherwise clears the active sandbox, sets the connection-lost message, and
performs the teardown of the active client (nothing but the teardown when
a client exists, nothing at all on the world otherwise). -/
theorem claim_c9_global_error_channel (env : Env) (w : World) :
    (∀ m, (unhandledRejectionHandler m).dispatched = isSdkDataViewError m ∧
          (unhandledRejectionHandler m).prevented = isSdkDataViewError m ∧
          windowErrorHandler m = unhandledRejectionHandler m) ∧
    (∀ ce, handleConnectionError env ⟨none, ce⟩ w = (⟨none, ce⟩, w)) ∧
    (∀ sb c b ce,
        handleConnectionError env ⟨some ⟨sb, some c, b⟩, ce⟩ w
          = (⟨none, some connectionLostMessage⟩, (clientDisconnect env c w).2)) ∧
    (∀ sb b ce,
        handleConnectionError env ⟨some ⟨sb, none, b⟩, ce⟩ w
          = (⟨none, some connectionLostMessage⟩, w)) := by
  refine ⟨fun m => ?_, fun ce => rfl, fun sb c b ce => rfl, fun sb b ce => rfl⟩
  cases h : isSdkDataViewError m <;>
    simp [unhandledRejectionHandler, windowErrorHandler, h]

/-- C2: within one invocation of `connectToBrowserSandbox` the remote
steps are strictly sequential for every input: the trace extends, in
order, by the resume call, then — only after it — the session-creation
call, then — only after that — the transport open (with the listener
registration the open performs, and the listener removal when the open
fails); whichever step fails cuts the sequence there, and no other
interleaving occurs. -/
theorem claim_c2_steps_sequential (env : Env) (id : SandboxId) (w : World) :
    (connectToBrowserSandbox env id w).2.trace = w.trace ++ [Event.resumeCall id] ∨
    (connectToBrowserSandbox env id w).2.trace
        = w.trace ++ [Event.resumeCall id, Event.createSessionCall id] ∨
    (connectToBrowserSandbox env id w).2.trace
        = w.trace ++ [Event.resumeCall id, Event.createSessionCall id,
                      Event.addListener, Event.transportOpenCall] ∨
    (connectToBrowserSandbox env id w).2.trace
        = w.trace ++ [Event.resumeCall id, Event.createSessionCall id,
                      Event.addListener, Event.transportOpenCall,
                      Event.removeListener] := by
  rcases connectToBrowserSandbox_cases env id w with
    ⟨m, _, hc⟩ | ⟨_, m, _, hc⟩ | ⟨_, _, m, _, hc⟩ | ⟨_, _, _, hc⟩
  · exact Or.inl (by rw [hc])
  · exact Or.inr (Or.inl (by rw [hc]))
  · exact Or.inr (Or.inr (Or.inr (by rw [hc])))
  · exact Or.inr (Or.inr (Or.inl (by rw [hc])))

/-- C8: the default visibility trigger installed when the caller supplies
no custom onFocusChange hook: the registration adds exactly one
visibilitychange handler to the host document; a visibilitychange event
that finds the document visible makes the handler invoke the transport
notify callback with true (with the single handler of one connection,
exactly once per event), one that finds it hidden invokes it with false,
and the returned unsubscribe removes exactly the handler the registration
added, restoring the previous listener set. -/
theorem claim_c8_default_visibility_trigger (w : World)
    (hfresh : w.nextListenerId ∉ w.listeners) :
    (addVisibilityListener w).2.listeners = w.listeners ++ [(addVisibilityListener w).1] ∧
    (w.listeners = [] →
      (fireVisibility "visible" (addVisibilityListener w).2).trace
          = (addVisibilityListener w).2.trace ++ [Event.notifyCall true] ∧
      (fireVisibility "hidden" (addVisibilityListener w).2).trace
          = (addVisibilityListener w).2.trace ++ [Event.notifyCall false]) ∧
    (removeVisibilityListener (addVisibilityListener w).1 (addVisibilityListener w).2).listeners
        = w.listeners := by
  refine ⟨rfl, fun h0 => ?_, ?_⟩
  · constructor <;> simp [fireVisibility, addVisibilityListener, h0]
  · simp [removeVisibilityListener, addVisibilityListener, erase_append_fresh _ _ hfresh]

/-- Witness for C8 at the initial world (no listener registered yet). -/
theorem claim_c8_default_visibility_trigger_witness :
    (addVisibilityListener World.init).2.listeners
        = World.init.listeners ++ [(addVisibilityListener World.init).1] ∧
    (World.init.listeners = [] →
      (fireVisibility "visible" (addVisibilityListener World.init).2).trace
          = (addVisibilityListener World.init).2.trace ++ [Event.notifyCall true] ∧
      (fireVisibility "hidden" (addVisibilityListener World.init).2).trace
          = (addVisibilityListener World.init).2.trace ++ [Event.notifyCall false]) ∧
    (removeVisibilityListener (addVisibilityListener World.init).1
        (addVisibilityListener World.init).2).listeners
        = World.init.listeners :=
  claim_c8_default_visibility_trigger World.init (by simp [World.init])

/-- C3 counterexample: the resume step — and only it — rejects, with
message boom; yet the surfaced connection error is the generic unknown
text, not the session-classified one.  The catch clause of part_005 lines
273-282 classifies by substrings of the error message, not by which step
failed. -/
theorem claim_c3_counterexample :
    (hookConnectToSandbox envResumeBoom true (some demoInfo) ⟨none, none⟩ World.init).1
        = ConnectResult.err "boom" ∧
    (hookConnectToSandbox envResumeBoom true (some demoInfo) ⟨none, none⟩ World.init).2.2.trace
        = [Event.resumeCall "abc123"] ∧
    (hookConnectToSandbox envResumeBoom true (some demoInfo) ⟨none, none⟩ World.init).2.1.connectionError
        = some "Connection failed: boom" ∧
    "Connection failed: boom" ≠ sessionErrorMessage ∧
    "Connection failed: boom" ≠ webSocketErrorMessage := by
  exact ⟨by decide, by decide, by decide, by decide, by decide⟩

/-- C3 amended: the classification of the surfaced connection error is
determined by the failing error's message text, independent of the step
that failed: a message containing WebSocket yields the transport-classified
text, otherwise a message containing session yields the session-classified
text, otherwise the generic unknown text carrying the original message. -/
theorem claim_c3_error_classified_by_text (env : Env) (i : SandboxInfo)
    (st : HookState) (w : World) (e : String) (st' : HookState) (w' : World)
    (h : hookConnectToSandbox env true (some i) st w = (ConnectResult.err e, st', w')) :
    st'.connectionError = some (connectErrorMessage e) ∧
    (includes e "WebSocket" = true → connectErrorMessage e = webSocketErrorMessage) ∧
    (includes e "WebSocket" = false → includes e "session" = true →
        connectErrorMessage e = sessionErrorMessage) ∧
    (includes e "WebSocket" = false → includes e "session" = false →
        connectErrorMessage e = "Connection failed: " ++ e) := by
  refine ⟨?_, fun h1 => by simp [connectErrorMessage, h1],
          fun h1 h2 => by simp [connectErrorMessage, h1, h2],
          fun h1 h2 => by simp [connectErrorMessage, h1, h2]⟩
  rcases hc : connectToBrowserSandbox env i.id w with ⟨r, w1⟩
  rcases r with e' | ⟨cl, sb⟩
  · simp only [hookConnectToSandbox, hc, Prod.mk.injEq, ConnectResult.err.injEq] at h
    rcases h with ⟨he, hst, -⟩
    subst he
    rw [← hst]
  · simp [hookConnectToSandbox, hc] at h

/-- Witness for the amended C3: resume rejects with the message boom,
which contains neither WebSocket nor session, so the generic text is
surfaced. -/
theorem claim_c3_error_classified_by_text_witness :
    (hookConnectToSandbox envResumeBoom true (some demoInfo) ⟨none, none⟩ World.init).2.1.connectionError
        = some (connectErrorMessage "boom") ∧
    (includes "boom" "WebSocket" = true → connectErrorMessage "boom" = webSocketErrorMessage) ∧
    (includes "boom" "WebSocket" = false → includes "boom" "session" = true →
        connectErrorMessage "boom" = sessionErrorMessage) ∧
    (includes "boom" "WebSocket" = false → includes "boom" "session" = false →
        connectErrorMessage "boom" = "Connection failed: " ++ "boom") :=
  claim_c3_error_classified_by_text envResumeBoom demoInfo ⟨none, none⟩ World.init "boom"
    (hookConnectToSandbox envResumeBoom true (some demoInfo) ⟨none, none⟩ World.init).2.1
    (hookConnectToSandbox envResumeBoom true (some demoInfo) ⟨none, none⟩ World.init).2.2
    rfl

/-- C4: a successful connect overlays the caller-supplied listing metadata
(title, privacy, createdAt, updatedAt, tags) on the resolved sandbox
handle stored with the live client — the resume response itself carries
only the id.  The reconnection supplier `getSession` takes no hook state,
so reconnect-time resumes cannot strip the overlay from the resolved
handle. -/
theorem claim_c4_metadata_overlay (env : Env) (i : SandboxInfo) (st : HookState)
    (w : World) (c : Client) (st' : HookState) (w' : World)
    (h : hookConnectToSandbox env true (some i) st w = (ConnectResult.ok c, st', w')) :
    ∃ meta : SandboxMeta,
      st'.activeSandbox = some ⟨some meta, some c, false⟩ ∧
      st'.connectionError = none ∧
      meta.title = i.title ∧ meta.privacy = i.privacy ∧
      meta.createdAt = i.createdAt ∧ meta.updatedAt = i.updatedAt ∧
      meta.tags = i.tags := by
  rcases hc : connectToBrowserSandbox env i.id w with ⟨r, w1⟩
  rcases r with e' | ⟨cl, sb⟩
  · simp [hookConnectToSandbox, hc] at h
  · simp only [hookConnectToSandbox, hc, Prod.mk.injEq, ConnectResult.ok.injEq] at h
    rcases h with ⟨hcl, hst, -⟩
    subst hcl
    exact ⟨⟨sb.id, i.title, i.privacy, i.createdAt, i.updatedAt, i.tags⟩,
      by rw [← hst], by rw [← hst], rfl, rfl, rfl, rfl, rfl⟩

/-- Witness for C4: the scenario of the spec — sandbox abc123, caller
metadata title Demo, all three remote steps succeed; the resolved handle
carries title Demo. -/
theorem claim_c4_metadata_overlay_witness :
    ∃ meta : SandboxMeta,
      (hookConnectToSandbox envAllOk true (some demoInfo) ⟨none, none⟩ World.init).2.1.activeSandbox
          = some ⟨some meta, some ⟨⟨"abc123", 0⟩, 0⟩, false⟩ ∧
      (hookConnectToSandbox envAllOk true (some demoInfo) ⟨none, none⟩ World.init).2.1.connectionError
          = none ∧
      meta.title = some "Demo" ∧ meta.privacy = none ∧
      meta.createdAt = none ∧ meta.updatedAt = none ∧
      meta.tags = none :=
  claim_c4_metadata_overlay envAllOk demoInfo ⟨none, none⟩ World.init ⟨⟨"abc123", 0⟩, 0⟩
    (hookConnectToSandbox envAllOk true (some demoInfo) ⟨none, none⟩ World.init).2.1
    (hookConnectToSandbox envAllOk true (some demoInfo) ⟨none, none⟩ World.init).2.2
    rfl

/-- C5: a rejected connect leaves no partial state: the active-sandbox
reference is cleared, and the registered visibility listeners are exactly
those of before the call — when resume or session creation fails no
listener was ever added, and when the transport open fails the listener
added during the open has been removed again. -/
theorem claim_c5_no_partial_state (env : Env) (i : SandboxInfo) (st : HookState)
    (w : World) (e : String) (st' : HookState) (w' : World)
    (hfresh : w.nextListenerId ∉ w.listeners)
    (h : hookConnectToSandbox env true (some i) st w = (ConnectResult.err e, st', w')) :
    st'.activeSandbox = none ∧ w'.listeners = w.listeners := by
  rcases connectToBrowserSandbox_cases env i.id w with
    ⟨m, _, hc⟩ | ⟨_, m, _, hc⟩ | ⟨_, _, m, _, hc⟩ | ⟨_, _, _, hc⟩
  · simp only [hookConnectToSandbox, hc, Prod.mk.injEq] at h
    exact ⟨by rw [← h.2.1], by rw [← h.2.2]⟩
  · simp only [hookConnectToSandbox, hc, Prod.mk.injEq] at h
    exact ⟨by rw [← h.2.1], by rw [← h.2.2]⟩
  · simp only [hookConnectToSandbox, hc, Prod.mk.injEq] at h
    refine ⟨by rw [← h.2.1], ?_⟩
    rw [← h.2.2]
    exact erase_append_fresh _ _ hfresh
  · simp [hookConnectToSandbox, hc] at h

/-- Witness for C5: transport open fails after resume and session
creation succeed; the listener registered during the open is gone and the
active sandbox is cleared. -/
theorem claim_c5_no_partial_state_witness :
    (hookConnectToSandbox envOpenFail true (some demoInfo) ⟨none, none⟩ World.init).2.1.activeSandbox
        = none ∧
    (hookConnectToSandbox envOpenFail true (some demoInfo) ⟨none, none⟩ World.init).2.2.listeners
        = World.init.listeners :=
  claim_c5_no_partial_state envOpenFail demoInfo ⟨none, none⟩ World.init "WebSocket closed"
    (hookConnectToSandbox envOpenFail true (some demoInfo) ⟨none, none⟩ World.init).2.1
    (hookConnectToSandbox envOpenFail true (some demoInfo) ⟨none, none⟩ World.init).2.2
    (by simp [World.init]) rfl

/-- C6: no automatic retry on a failed initial connect: the failure is
surfaced to the caller as a rejected result with the human-readable
connection-error message set, and the single invocation performed exactly
one resume attempt, at most one session creation, and at most one
transport open — a second attempt happens only when the caller calls
connect again. -/
theorem claim_c6_no_retry (env : Env) (i : SandboxInfo) (st : HookState)
    (w : World) (e : String) (st' : HookState) (w' : World)
    (h : hookConnectToSandbox env true (some i) st w = (ConnectResult.err e, st', w')) :
    st'.connectionError = some (connectErrorMessage e) ∧
    w'.resumeCount = w.resumeCount + 1 ∧
    w'.createCount ≤ w.createCount + 1 ∧
    openCalls w'.trace ≤ openCalls w.trace + 1 := by
  rcases connectToBrowserSandbox_cases env i.id w with
    ⟨m, _, hc⟩ | ⟨_, m, _, hc⟩ | ⟨_, _, m, _, hc⟩ | ⟨_, _, _, hc⟩
  · simp only [hookConnectToSandbox, hc, Prod.mk.injEq, ConnectResult.err.injEq] at h
    rcases h with ⟨he, hst, hw⟩
    subst he
    refine ⟨by rw [← hst], by rw [← hw], by rw [← hw]; simp, ?_⟩
    rw [← hw]
    simp [openCalls_append, openCalls, List.filter, Event.isOpenCall]
  · simp only [hookConnectToSandbox, hc, Prod.mk.injEq, ConnectResult.err.injEq] at h
    rcases h with ⟨he, hst, hw⟩
    subst he
    refine ⟨by rw [← hst], by rw [← hw], by rw [← hw], ?_⟩
    rw [← hw]
    simp [openCalls_append, openCalls, List.filter, Event.isOpenCall]
  · simp only [hookConnectToSandbox, hc, Prod.mk.injEq, ConnectResult.err.injEq] at h
    rcases h with ⟨he, hst, hw⟩
    subst he
    refine ⟨by rw [← hst], by rw [← hw], by rw [← hw], ?_⟩
    rw [← hw]
    simp [openCalls_append, openCalls, List.filter, Event.isOpenCall]
  · simp [hookConnectToSandbox, hc] at h

/-- Witness for C6: the failing resume of the boom environment. -/
theorem claim_c6_no_retry_witness :
    (hookConnectToSandbox envResumeBoom true (some demoInfo) ⟨none, none⟩ World.init).2.1.connectionError
        = some (connectErrorMessage "boom") ∧
    (hookConnectToSandbox envResumeBoom true (some demoInfo) ⟨none, none⟩ World.init).2.2.resumeCount
        = World.init.resumeCount + 1 ∧
    (hookConnectToSandbox envResumeBoom true (some demoInfo) ⟨none, none⟩ World.init).2.2.createCount
        ≤ World.init.createCount + 1 ∧
    openCalls (hookConnectToSandbox envResumeBoom true (some demoInfo) ⟨none, none⟩ World.init).2.2.trace
        ≤ openCalls World.init.trace + 1 :=
  claim_c6_no_retry envResumeBoom demoInfo ⟨none, none⟩ World.init "boom"
    (hookConnectToSandbox envResumeBoom true (some demoInfo) ⟨none, none⟩ World.init).2.1
    (hookConnectToSandbox envResumeBoom true (some demoInfo) ⟨none, none⟩ World.init).2.2
    rfl

/-- C1: sessions are always freshly created, never reused.  Part one: a
connect, disconnect, connect sequence through the hook yields two clients
whose sessions are distinct objects.  Part two: N serialized invocations
of the `getSession` supplier over one connection perform exactly N resume
calls and N session-creation calls and return the brand-new sessions with
serials createCount, createCount+1, … — pairwise distinct and all issued
after every previously existing session, so no invocation ever returns a
cached or previously issued one. -/
theorem claim_c1_fresh_sessions (env : Env) (i : SandboxInfo) (id : SandboxId)
    (st : HookState) (w : World) (n : Nat)
    (hres : ∀ k, env.resumeFails k = none)
    (hcre : ∀ k, env.createFails k = none)
    (hopen : env.openFails = none) :
    (∃ c1 c2 : Client,
      (hookConnectToSandbox env true (some i) st w).1 = ConnectResult.ok c1 ∧
      (hookConnectToSandbox env true (some i)
          (disconnectFromSandbox env (hookConnectToSandbox env true (some i) st w).2.1
              (hookConnectToSandbox env true (some i) st w).2.2).1
          (disconnectFromSandbox env (hookConnectToSandbox env true (some i) st w).2.1
              (hookConnectToSandbox env true (some i) st w).2.2).2).1
        = ConnectResult.ok c2 ∧
      c1.session ≠ c2.session) ∧
    ((iterGetSession env id w n).1
        = (List.range n).map (fun k => Except.ok ⟨id, w.createCount + k⟩) ∧
     (iterGetSession env id w n).2.resumeCount = w.resumeCount + n ∧
     (iterGetSession env id w n).2.createCount = w.createCount + n ∧
     ((iterGetSession env id w n).1).Nodup) := by
  constructor
  · have h1 := hookConnectToSandbox_ok env i st w (hres _) (hcre _) hopen
    rw [h1]
    have hd := disconnectFromSandbox_counts env
      { activeSandbox := some ⟨some ⟨i.id, i.title, i.privacy, i.createdAt, i.updatedAt, i.tags⟩,
                               some ⟨⟨i.id, w.createCount⟩, w.nextListenerId⟩, false⟩,
        connectionError := none }
      { w with resumeCount := w.resumeCount + 1,
               createCount := w.createCount + 1,
               listeners := w.listeners ++ [w.nextListenerId],
               nextListenerId := w.nextListenerId + 1,
               trace := w.trace ++ [Event.resumeCall i.id, Event.createSessionCall i.id,
                                    Event.addListener, Event.transportOpenCall] }
    have h2 := hookConnectToSandbox_ok env i
      (disconnectFromSandbox env
        { activeSandbox := some ⟨some ⟨i.id, i.title, i.privacy, i.createdAt, i.updatedAt, i.tags⟩,
                                 some ⟨⟨i.id, w.createCount⟩, w.nextListenerId⟩, false⟩,
          connectionError := none }
        { w with resumeCount := w.resumeCount + 1,
                 createCount := w.createCount + 1,
                 listeners := w.listeners ++ [w.nextListenerId],
                 nextListenerId := w.nextListenerId + 1,
                 trace := w.trace ++ [Event.resumeCall i.id, Event.createSessionCall i.id,
                                      Event.addListener, Event.transportOpenCall] }).1
      (disconnectFromSandbox env
        { activeSandbox := some ⟨some ⟨i.id, i.title, i.privacy, i.createdAt, i.updatedAt, i.tags⟩,
                                 some ⟨⟨i.id, w.createCount⟩, w.nextListenerId⟩, false⟩,
          connectionError := none }
        { w with resumeCount := w.resumeCount + 1,
                 createCount := w.createCount + 1,
                 listeners := w.listeners ++ [w.nextListenerId],
                 nextListenerId := w.nextListenerId + 1,
                 trace := w.trace ++ [Event.resumeCall i.id, Event.createSessionCall i.id,
                                      Event.addListener, Event.transportOpenCall] }).2
      (hres _) (hcre _) hopen
    rw [h2]
    refine ⟨_, _, rfl, rfl, ?_⟩
    intro hs
    have hser := congrArg Session.serial hs
    simp only at hser
    rw [hd.2] at hser
    dsimp only at hser
    omega
  · have hs := iterGetSession_spec env id hres hcre n w
    refine ⟨hs.1, hs.2.1, hs.2.2, ?_⟩
    rw [hs.1]
    refine List.Nodup.map ?_ (List.nodup_range n)
    intro a b hab
    simp only [Except.ok.injEq, Session.mk.injEq, true_and] at hab
    omega

/-- Witness for C1: all remote calls succeed; two connects around a
disconnect at the initial world, and two supplier invocations. -/
theorem claim_c1_fresh_sessions_witness :
    (∃ c1 c2 : Client,
      (hookConnectToSandbox envAllOk true (some demoInfo) ⟨none, none⟩ World.init).1
          = ConnectResult.ok c1 ∧
      (hookConnectToSandbox envAllOk true (some demoInfo)
          (disconnectFromSandbox envAllOk
              (hookConnectToSandbox envAllOk true (some demoInfo) ⟨none, none⟩ World.init).2.1
              (hookConnectToSandbox envAllOk true (some demoInfo) ⟨none, none⟩ World.init).2.2).1
          (disconnectFromSandbox envAllOk
              (hookConnectToSandbox envAllOk true (some demoInfo) ⟨none, none⟩ World.init).2.1
              (hookConnectToSandbox envAllOk true (some demoInfo) ⟨none, none⟩ World.init).2.2).2).1
        = ConnectResult.ok c2 ∧
      c1.session ≠ c2.session) ∧
    ((iterGetSession envAllOk "abc123" World.init 2).1
        = (List.range 2).map (fun k => Except.ok ⟨"abc123", World.init.createCount + k⟩) ∧
     (iterGetSession envAllOk "abc123" World.init 2).2.resumeCount
        = World.init.resumeCount + 2 ∧
     (iterGetSession envAllOk "abc123" World.init 2).2.createCount
        = World.init.createCount + 2 ∧
     ((iterGetSession envAllOk "abc123" World.init 2).1).Nodup) :=
  claim_c1_fresh_sessions envAllOk demoInfo "abc123" ⟨none, none⟩ World.init 2
    (fun _ => rfl) (fun _ => rfl) rfl

end SdkHero
